import Mathlib

/-!
Verification of the github-copilot-svcs reverse proxy.

This file gives a shallow embedding, in Lean 4, of the parts of the
source that the specification's claims speak about, and proves or
refutes each claim against that embedding.  The repository contains two
parallel implementations of several components: a legacy `main` package
(`proxy.go`, `auth.go`, the first halves of `config.go` / `main.go`) and
a newer `internal` package (`internal/server.go` and the `internal`
halves of the split files).  Where a claim cites both, both are
embedded.

Conventions:
* Go `int64` timestamps (Unix seconds) are modelled as `Int`;
  counters are modelled as `Nat` (they start at 0 and only ever get
  incremented or reset to 0 in the source).
* Stateful Go methods become pure functions `state → ... → state`.
* Concurrency is modelled by explicit interleavings: an operation
  sequence is a `List` of operation tags folded over the state.
-/

namespace CopilotSvcs

/-! ## Circuit breaker (`proxy.go` lines 29-97)

The Go struct `CircuitBreaker` carries a failure counter, the time of
the last failure, a three-valued state and a recovery timeout.  The
three methods `canExecute`, `onSuccess` and `onFailure` are translated
literally; `canExecute` both returns a `Bool` and (in the `Open` branch
whose recovery interval has elapsed) mutates the state, so it is
modelled as returning a pair.
-/

/-- `CircuitBreakerState` from `proxy.go`: `CircuitClosed`, `CircuitOpen`,
`CircuitHalfOpen`. -/
inductive CircuitBreakerState where
  | closed
  | open
  | halfOpen
deriving DecidableEq, Repr

/-- The `CircuitBreaker` struct from `proxy.go` (mutex dropped:
operations are modelled as atomic). -/
structure CircuitBreaker where
  failureCount : Nat
  lastFailureTime : Int
  state : CircuitBreakerState
  timeout : Int
deriving DecidableEq, Repr

/-- `circuitBreakerFailureThreshold = 5` from `proxy.go`. -/
def circuitBreakerFailureThreshold : Nat := 5

/-- The package-level `circuitBreaker` value from `proxy.go`:
state `CircuitClosed`, zero counter and zero last-failure time, with a
configurable recovery timeout (30 s by default). -/
def CircuitBreaker.initial (timeout : Int) : CircuitBreaker :=
  { failureCount := 0, lastFailureTime := 0, state := .closed, timeout := timeout }

/-- `(*CircuitBreaker).canExecute` from `proxy.go`, with `time.Since`
rendered as `now - lastFailureTime`.  Returns the admission decision and
the (possibly updated) breaker: in the `Open` branch, once
`now - lastFailureTime > timeout`, the breaker is set to `HalfOpen` and
the call is admitted. -/
def CircuitBreaker.canExecute (cb : CircuitBreaker) (now : Int) :
    Bool × CircuitBreaker :=
  match cb.state with
  | .closed => (true, cb)
  | .open =>
      if now - cb.lastFailureTime > cb.timeout then
        (true, { cb with state := .halfOpen })
      else
        (false, cb)
  | .halfOpen => (true, cb)

/-- `(*CircuitBreaker).onSuccess` from `proxy.go`: reset the counter and
close the breaker. -/
def CircuitBreaker.onSuccess (cb : CircuitBreaker) : CircuitBreaker :=
  { cb with failureCount := 0, state := .closed }

/-- `(*CircuitBreaker).onFailure` from `proxy.go`: increment the counter,
stamp the failure time, and open the breaker once the counter reaches
the threshold (5). -/
def CircuitBreaker.onFailure (cb : CircuitBreaker) (now : Int) : CircuitBreaker :=
  let fc := cb.failureCount + 1
  { cb with
    failureCount := fc
    lastFailureTime := now
    state := if fc ≥ circuitBreakerFailureThreshold then .open else cb.state }

/-- An operation on the breaker, for building interleavings. -/
inductive CBOp where
  | success
  | failure (now : Int)
  | gate (now : Int)
deriving DecidableEq, Repr

/-- Apply one operation; `gate` is a `canExecute` call (only its state
effect is kept here). -/
def CircuitBreaker.applyOp (cb : CircuitBreaker) : CBOp → CircuitBreaker
  | .success => cb.onSuccess
  | .failure now => cb.onFailure now
  | .gate now => (cb.canExecute now).2

/-- Run a sequence of breaker operations. -/
def CircuitBreaker.runOps (cb : CircuitBreaker) (l : List CBOp) : CircuitBreaker :=
  l.foldl CircuitBreaker.applyOp cb

/-- `n` consecutive `onFailure` calls, all stamped `now`. -/
def CircuitBreaker.failures (cb : CircuitBreaker) (now : Int) : Nat → CircuitBreaker
  | 0 => cb
  | n + 1 => (cb.onFailure now).failures now n

lemma CircuitBreaker.failures_count (cb : CircuitBreaker) (now : Int) (n : Nat) :
    (cb.failures now n).failureCount = cb.failureCount + n := by
  induction n generalizing cb with
  | zero => rfl
  | succ n ih =>
      simp [CircuitBreaker.failures, ih, CircuitBreaker.onFailure]
      omega

lemma CircuitBreaker.failures_state_open (cb : CircuitBreaker) (now : Int) (n : Nat)
    (h : cb.failureCount + n ≥ circuitBreakerFailureThreshold) (hn : 0 < n) :
    (cb.failures now n).state = .open := by
  induction n generalizing cb with
  | zero => omega
  | succ n ih =>
      rcases Nat.eq_zero_or_pos n with h0 | hpos
      · subst h0
        simp only [CircuitBreaker.failures, CircuitBreaker.onFailure]
        have : cb.failureCount + 1 ≥ circuitBreakerFailureThreshold := by omega
        simp [this]
      · exact ih (cb.onFailure now) (by simp [CircuitBreaker.onFailure]; omega) hpos

/-- Invariant: in a state reachable from the initial breaker, an `Open`
or `HalfOpen` breaker has accumulated at least the threshold of
failures, and a `Closed` breaker has fewer. -/
def CircuitBreaker.Inv (cb : CircuitBreaker) : Prop :=
  (cb.state = .open ∨ cb.state = .halfOpen) →
    cb.failureCount ≥ circuitBreakerFailureThreshold

lemma CircuitBreaker.inv_initial (timeout : Int) :
    (CircuitBreaker.initial timeout).Inv := by
  intro h
  simp [CircuitBreaker.initial] at h

lemma CircuitBreaker.inv_applyOp (cb : CircuitBreaker) (op : CBOp)
    (h : cb.Inv) : (cb.applyOp op).Inv := by
  cases op with
  | success =>
      intro hst
      simp [CircuitBreaker.applyOp, CircuitBreaker.onSuccess] at hst
  | failure now =>
      intro hst
      simp only [CircuitBreaker.applyOp, CircuitBreaker.onFailure] at hst ⊢
      by_cases hge : cb.failureCount + 1 ≥ circuitBreakerFailureThreshold
      · exact hge
      · simp only [if_neg hge] at hst
        have := h hst
        omega
  | gate now =>
      intro hst
      cases hcb : cb.state with
      | closed =>
          simp [CircuitBreaker.applyOp, CircuitBreaker.canExecute, hcb] at hst
      | «open» =>
          have hcount := h (Or.inl hcb)
          by_cases ht : cb.timeout < now - cb.lastFailureTime <;>
            simpa [CircuitBreaker.applyOp, CircuitBreaker.canExecute, hcb, ht]
              using hcount
      | halfOpen =>
          have hcount := h (Or.inr hcb)
          simpa [CircuitBreaker.applyOp, CircuitBreaker.canExecute, hcb]
            using hcount

lemma CircuitBreaker.inv_runOps (cb : CircuitBreaker) (l : List CBOp)
    (h : cb.Inv) : (cb.runOps l).Inv := by
  induction l generalizing cb with
  | nil => exact h
  | cons op rest ih => exact ih (cb.applyOp op) (cb.inv_applyOp op h)

/-- A `Closed` breaker always has fewer than threshold failures. -/
def CircuitBreaker.ClosedInv (cb : CircuitBreaker) : Prop :=
  cb.state = .closed → cb.failureCount < circuitBreakerFailureThreshold

lemma CircuitBreaker.closedInv_applyOp (cb : CircuitBreaker) (op : CBOp)
    (h : cb.ClosedInv) : (cb.applyOp op).ClosedInv := by
  cases op with
  | success =>
      intro _
      simp [CircuitBreaker.applyOp, CircuitBreaker.onSuccess,
        circuitBreakerFailureThreshold]
  | failure now =>
      intro hst
      simp only [CircuitBreaker.applyOp, CircuitBreaker.onFailure] at hst ⊢
      by_cases hge : cb.failureCount + 1 ≥ circuitBreakerFailureThreshold
      · simp [if_pos hge] at hst
      · omega
  | gate now =>
      intro hst
      cases hcb : cb.state with
      | closed =>
          have := h hcb
          simpa [CircuitBreaker.applyOp, CircuitBreaker.canExecute, hcb]
            using this
      | «open» =>
          by_cases ht : cb.timeout < now - cb.lastFailureTime <;>
            simp [CircuitBreaker.applyOp, CircuitBreaker.canExecute, hcb, ht]
              at hst
      | halfOpen =>
          simp [CircuitBreaker.applyOp, CircuitBreaker.canExecute, hcb] at hst

lemma CircuitBreaker.closedInv_runOps (cb : CircuitBreaker) (l : List CBOp)
    (h : cb.ClosedInv) : (cb.runOps l).ClosedInv := by
  induction l generalizing cb with
  | nil => exact h
  | cons op rest ih => exact ih (cb.applyOp op) (cb.closedInv_applyOp op h)

/-- C4 (counterexample): the claim `state = Closed → failure_count = 0` is
false on the code.  One `onFailure` from the initial breaker leaves the
state `Closed` (the threshold of 5 is not reached) while the consecutive
failure counter is 1, not 0. -/
theorem claimC4_counterexample :
    ((CircuitBreaker.initial 30).onFailure 0).state = .closed ∧
      ((CircuitBreaker.initial 30).onFailure 0).failureCount = 1 ∧
      ¬ ((CircuitBreaker.initial 30).onFailure 0).failureCount = 0 := by
  decide

/-- C4 (amended): in every breaker state reachable from the initial one by
any sequence of `onSuccess`, `onFailure` (and `canExecute`) calls, if the
state is `Closed` then the consecutive failure count is below the opening
threshold 5 (it need not be 0: a failure in `Closed` increments the counter
without leaving `Closed` until the threshold is reached). -/
theorem claimC4_theorem (timeout : Int) (l : List CBOp)
    (h : ((CircuitBreaker.initial timeout).runOps l).state = .closed) :
    ((CircuitBreaker.initial timeout).runOps l).failureCount <
      circuitBreakerFailureThreshold := by
  refine CircuitBreaker.closedInv_runOps _ l ?_ h
  intro _
  simp [CircuitBreaker.initial, circuitBreakerFailureThreshold]

/-- C4 (witness): the amended invariant evaluated on the concrete run
`failure, failure, success, failure`, which ends `Closed` with counter 1. -/
theorem claimC4_witness :
    ((CircuitBreaker.initial 30).runOps
        [CBOp.failure 0, CBOp.failure 1, CBOp.success, CBOp.failure 2]).failureCount <
      circuitBreakerFailureThreshold :=
  claimC4_theorem 30 [CBOp.failure 0, CBOp.failure 1, CBOp.success, CBOp.failure 2]
    (by decide)

/-- C3 (counterexample): after 5 failures at time 0 (breaker `Open`,
timeout 30), a `canExecute` at time 31 is admitted and moves the state to
`HalfOpen`; but a second `canExecute` — before any probe outcome is
recorded — is admitted as well, so the code does not admit "exactly one
probe call" after the recovery interval. -/
theorem claimC3_counterexample :
    (((CircuitBreaker.initial 30).failures 0 5).canExecute 31).1 = true ∧
      ((((CircuitBreaker.initial 30).failures 0 5).canExecute 31).2.canExecute 31).1
        = true ∧
      (((CircuitBreaker.initial 30).failures 0 5).canExecute 31).2.state
        = .halfOpen ∧
      ((((CircuitBreaker.initial 30).failures 0 5).canExecute 31).2.canExecute 31).2.state
        = .halfOpen := by
  decide

/-- C3 (amended): for every breaker state reachable from the initial one:
(a) 5 consecutive `onFailure` calls put the breaker in `Open`;
(b) while `Open`, `canExecute` returns false as long as
    `now - last_failure_time ≤ recovery timeout`;
(c) once `now - last_failure_time > recovery timeout`, `canExecute`
    admits the call and moves the state to `HalfOpen`;
(d) while `HalfOpen` every `canExecute` call (not exactly one) is
    admitted, until (e) a probe success closes the breaker and resets the
    counter, or (f) a probe failure reopens it. -/
theorem claimC3_theorem (timeout : Int) (l : List CBOp) (now : Int) :
    ((((CircuitBreaker.initial timeout).runOps l).failures now 5).state = .open) ∧
    (((CircuitBreaker.initial timeout).runOps l).state = .open →
      now - ((CircuitBreaker.initial timeout).runOps l).lastFailureTime ≤
          ((CircuitBreaker.initial timeout).runOps l).timeout →
      (((CircuitBreaker.initial timeout).runOps l).canExecute now).1 = false) ∧
    (((CircuitBreaker.initial timeout).runOps l).state = .open →
      now - ((CircuitBreaker.initial timeout).runOps l).lastFailureTime >
          ((CircuitBreaker.initial timeout).runOps l).timeout →
      (((CircuitBreaker.initial timeout).runOps l).canExecute now).1 = true ∧
        (((CircuitBreaker.initial timeout).runOps l).canExecute now).2.state
          = .halfOpen) ∧
    (((CircuitBreaker.initial timeout).runOps l).state = .halfOpen →
      (((CircuitBreaker.initial timeout).runOps l).canExecute now).1 = true) ∧
    (((CircuitBreaker.initial timeout).runOps l).onSuccess.state = .closed ∧
      ((CircuitBreaker.initial timeout).runOps l).onSuccess.failureCount = 0) ∧
    (((CircuitBreaker.initial timeout).runOps l).state = .halfOpen →
      (((CircuitBreaker.initial timeout).runOps l).onFailure now).state = .open) := by
  set cb := (CircuitBreaker.initial timeout).runOps l with hcb
  refine ⟨?_, ?_, ?_, ?_, ⟨rfl, rfl⟩, ?_⟩
  · exact CircuitBreaker.failures_state_open cb now 5
      (by simp [circuitBreakerFailureThreshold]) (by omega)
  · intro hst ht
    simp [CircuitBreaker.canExecute, hst, not_lt.mpr ht]
  · intro hst ht
    constructor <;> simp [CircuitBreaker.canExecute, hst, lt_of_not_le (not_le.mpr ht)]
  · intro hst
    simp [CircuitBreaker.canExecute, hst]
  · intro hst
    have hinv : cb.Inv :=
      CircuitBreaker.inv_runOps _ l (CircuitBreaker.inv_initial timeout)
    have hge := hinv (Or.inr hst)
    simp only [CircuitBreaker.onFailure]
    have : cb.failureCount + 1 ≥ circuitBreakerFailureThreshold := by omega
    simp [this]

/-- C3 (witness): the amended statement evaluated after 5 failures at
time 0 with timeout 30 and `now = 31`: the breaker is `Open`, the probe is
admitted and the state becomes `HalfOpen`. -/
theorem claimC3_witness :
    (((CircuitBreaker.initial 30).runOps
        [CBOp.failure 0, CBOp.failure 0, CBOp.failure 0, CBOp.failure 0,
          CBOp.failure 0]).canExecute 31).1 = true ∧
      (((CircuitBreaker.initial 30).runOps
        [CBOp.failure 0, CBOp.failure 0, CBOp.failure 0, CBOp.failure 0,
          CBOp.failure 0]).canExecute 31).2.state = .halfOpen :=
  (claimC3_theorem 30
      [CBOp.failure 0, CBOp.failure 0, CBOp.failure 0, CBOp.failure 0,
        CBOp.failure 0] 31).2.2.1 (by decide) (by decide)

/-! ## Token manager: refresh decision (`proxy.go` `ensureValidToken`,
`config.go` `AuthService.EnsureValidToken`)

The token fields of `Config` that the decision reads are embedded as
`TokenConfig`.  Both implementations are translated: the `main`-package
`ensureValidToken` (proxy request path) computes a proactive threshold
`max(300, refresh_in/5)`, while the `internal` `AuthService.EnsureValidToken`
compares against a fixed 5 minutes (`cfg.ExpiresAt <= now+300`).  Only
the decision (which action is taken) is modelled; the network part of a
refresh is claim C5's subject.  Division only ever happens under the
`RefreshIn > 0` guard, exactly as in the source, so Go's
truncated division and Lean's `Int` division agree on every value the
function divides. -/

/-- Token-related fields of `Config` (`main.go`). -/
structure TokenConfig where
  copilotToken : String
  githubToken : String
  expiresAt : Int
  refreshIn : Int
deriving DecidableEq, Repr

/-- What `ensureValidToken` decides to do. -/
inductive TokenAction where
  | authenticate
  | refresh
  | noop
deriving DecidableEq, Repr

/-- The threshold computation inside `ensureValidToken` (`proxy.go`):
start from 300 s; if `RefreshIn > 0`, use `RefreshIn / 5` when that is
larger. -/
def ensureValidThreshold (refreshIn : Int) : Int :=
  let refreshThreshold : Int := 300
  if refreshIn > 0 then
    let proactiveThreshold := refreshIn / 5
    if proactiveThreshold > refreshThreshold then proactiveThreshold
    else refreshThreshold
  else refreshThreshold

/-- Decision taken by `ensureValidToken` (`proxy.go`): authenticate when
the Copilot token is missing; refresh when `expires_at - now` is at or
below the threshold; otherwise do nothing and return success. -/
def ensureValidToken (cfg : TokenConfig) (now : Int) : TokenAction :=
  if cfg.copilotToken = "" then .authenticate
  else if cfg.expiresAt - now ≤ ensureValidThreshold cfg.refreshIn then .refresh
  else .noop

/-- What `AuthService.EnsureValidToken` decides to do (`internal`
package): with no token it returns an auth error instead of starting the
device flow. -/
inductive InternalTokenAction where
  | authError
  | refresh
  | noop
deriving DecidableEq, Repr

/-- Decision taken by `AuthService.EnsureValidToken` (`internal` half of
`config.go`): refresh iff `cfg.ExpiresAt ≤ now + 300` — a fixed 5-minute
threshold that ignores `RefreshIn`. -/
def ensureValidTokenInternal (cfg : TokenConfig) (now : Int) :
    InternalTokenAction :=
  if cfg.copilotToken = "" then .authError
  else if cfg.expiresAt ≤ now + 300 then .refresh
  else .noop

lemma ensureValidThreshold_eq_max (r : Int) :
    ensureValidThreshold r = max 300 (r / 5) := by
  unfold ensureValidThreshold
  by_cases hr : r > 0
  · simp only [if_pos hr]
    by_cases h5 : r / 5 > 300
    · simp [if_pos h5, max_eq_right (le_of_lt h5)]
    · simp [if_neg h5, max_eq_left (not_lt.mp h5)]
  · have h5 : r / 5 ≤ 300 := by omega
    simp [if_neg hr, max_eq_left h5]

/-- C1 (counterexample): the claim quantifies over every call of the
token manager's EnsureValid operation, and the repository has two: the
cited `internal` `AuthService.EnsureValidToken` uses the fixed threshold
300 s, not `max(300, refresh_in/5)`.  With a non-empty token,
`refresh_in = 3000` and `expires_at - now = 400`, the claim's threshold
is `max(300, 600) = 600`, so it demands a refresh — but the internal
implementation does not refresh (400 > 300). -/
theorem claimC1_counterexample :
    (400 : Int) - 0 ≤ max 300 ((3000 : Int) / 5) ∧
      ensureValidTokenInternal
        { copilotToken := "tok", githubToken := "gh",
          expiresAt := 400, refreshIn := 3000 } 0 ≠ .refresh := by
  constructor
  · decide
  · decide

/-- C1 (amended): with a non-empty Copilot token, the `main`-package
`ensureValidToken` (the proxy request path) refreshes iff
`expires_at - now ≤ max(300, refresh_in/5)` and otherwise succeeds
without refreshing; the `internal` `AuthService.EnsureValidToken`
refreshes iff `expires_at - now ≤ 300`, with a fixed 5-minute threshold
regardless of `refresh_in`. -/
theorem claimC1_theorem (cfg : TokenConfig) (now : Int)
    (h : cfg.copilotToken ≠ "") :
    (ensureValidToken cfg now = .refresh ↔
        cfg.expiresAt - now ≤ max 300 (cfg.refreshIn / 5)) ∧
      (ensureValidToken cfg now ≠ .refresh →
        ensureValidToken cfg now = .noop) ∧
      (ensureValidTokenInternal cfg now = .refresh ↔
        cfg.expiresAt - now ≤ 300) := by
  refine ⟨?_, ?_, ?_⟩
  · rw [← ensureValidThreshold_eq_max]
    unfold ensureValidToken
    by_cases hle : cfg.expiresAt - now ≤ ensureValidThreshold cfg.refreshIn <;>
      simp [h, hle]
  · unfold ensureValidToken
    by_cases hle : cfg.expiresAt - now ≤ ensureValidThreshold cfg.refreshIn <;>
      simp [h, hle]
  · unfold ensureValidTokenInternal
    by_cases hle : cfg.expiresAt ≤ now + 300 <;>
      simp [h, hle] <;> omega

/-- C1 (witness): the amended statement at a token with 400 s left and
`refresh_in = 3000`: the proxy-path decision is governed by the 600 s
threshold while the internal decision is governed by the fixed 300 s
threshold. -/
theorem claimC1_witness :
    (ensureValidToken
        { copilotToken := "tok", githubToken := "gh",
          expiresAt := 400, refreshIn := 3000 } 0 = .refresh ↔
      (400 : Int) - 0 ≤ max 300 ((3000 : Int) / 5)) ∧
    (ensureValidToken
        { copilotToken := "tok", githubToken := "gh",
          expiresAt := 400, refreshIn := 3000 } 0 ≠ .refresh →
      ensureValidToken
        { copilotToken := "tok", githubToken := "gh",
          expiresAt := 400, refreshIn := 3000 } 0 = .noop) ∧
    (ensureValidTokenInternal
        { copilotToken := "tok", githubToken := "gh",
          expiresAt := 400, refreshIn := 3000 } 0 = .refresh ↔
      (400 : Int) - 0 ≤ 300) :=
  claimC1_theorem
    { copilotToken := "tok", githubToken := "gh",
      expiresAt := 400, refreshIn := 3000 } 0 (by decide)

/-! ## Token refresh retry loop (`auth.go` `refreshToken`,
`config.go` `AuthService.RefreshTokenWithContext`)

The exchange (`getCopilotToken`) is network I/O; it is abstracted as an
oracle `out : Nat → Bool` giving the outcome of each attempt (indexed
from 1, as in the source).  The run is recorded as a trace of events —
which attempts were made, which delays were slept, whether the new token
was saved — plus the result.  `refreshToken` (`auth.go`) sleeps with
`time.Sleep`; `RefreshTokenWithContext` sleeps in a `select` against
`ctx.Done()`, modelled by a deadline (seconds from the start of the run)
against which elapsed time is compared: if the deadline lands strictly
inside a sleep, the sleep is interrupted and the run returns the
context's error. -/

/-- `maxRefreshRetries = 3` (`auth.go` and the `internal` package). -/
def maxRefreshRetries : Nat := 3

/-- `baseRetryDelay = 2` seconds (`auth.go` and the `internal` package). -/
def baseRetryDelay : Nat := 2

/-- One observable step of a refresh run. -/
inductive RefreshEvent where
  | attempt (n : Nat)
  | sleep (secs : Nat)
  | save
deriving DecidableEq, Repr

/-- Result of a refresh run. -/
inductive RefreshResult where
  | ok
  | exchangeFailed
  | noGitHubToken
  | ctxCancelled
deriving DecidableEq, Repr

/-- The retry loop of `refreshToken` (`auth.go`): `attempt` is the loop
counter (starting at 1), `fuel` the number of iterations left
(`maxRefreshRetries` at the top call).  A failed attempt that is not the
last sleeps `baseRetryDelay·attempt²` seconds and retries; a failed last
attempt returns the error; a success saves the config and returns. -/
def refreshAttempts (out : Nat → Bool) (attempt : Nat) :
    Nat → List RefreshEvent × RefreshResult
  | 0 => ([], .exchangeFailed)
  | fuel + 1 =>
      if out attempt then
        ([.attempt attempt, .save], .ok)
      else if attempt = maxRefreshRetries then
        ([.attempt attempt], .exchangeFailed)
      else
        let rest := refreshAttempts out (attempt + 1) fuel
        (.attempt attempt ::
          .sleep (baseRetryDelay * attempt * attempt) :: rest.1, rest.2)

/-- `refreshToken` (`auth.go`): fail fast without a GitHub token, else
run the retry loop.  Its sleep is a plain `time.Sleep`: no deadline is
consulted anywhere. -/
def refreshToken (githubToken : String) (out : Nat → Bool) :
    List RefreshEvent × RefreshResult :=
  if githubToken = "" then ([], .noGitHubToken)
  else refreshAttempts out 1 maxRefreshRetries

/-- The retry loop of `AuthService.RefreshTokenWithContext` (`internal`
half of `config.go`): same schedule, but each sleep is a `select` between
`time.After(waitTime)` and `ctx.Done()`.  `deadline` (if any) is the
absolute time, in seconds from the start of the run, at which the context
expires; exchanges are treated as instantaneous, so `elapsed` only grows
by completed sleeps.  A deadline landing strictly before the end of a
sleep interrupts it and the run returns `ctx.Err()`. -/
def refreshAttemptsCtx (out : Nat → Bool) (deadline : Option Nat)
    (elapsed : Nat) (attempt : Nat) :
    Nat → List RefreshEvent × RefreshResult
  | 0 => ([], .exchangeFailed)
  | fuel + 1 =>
      if out attempt then
        ([.attempt attempt, .save], .ok)
      else if attempt = maxRefreshRetries then
        ([.attempt attempt], .exchangeFailed)
      else
        let w := baseRetryDelay * attempt * attempt
        match deadline with
        | some d =>
            if d < elapsed + w then
              ([.attempt attempt], .ctxCancelled)
            else
              let rest := refreshAttemptsCtx out deadline (elapsed + w)
                (attempt + 1) fuel
              (.attempt attempt :: .sleep w :: rest.1, rest.2)
        | none =>
            let rest := refreshAttemptsCtx out deadline (elapsed + w)
              (attempt + 1) fuel
            (.attempt attempt :: .sleep w :: rest.1, rest.2)

/-- `AuthService.RefreshTokenWithContext` without an injected
`refreshFunc`: fail fast without a GitHub token, else run the
context-aware retry loop. -/
def refreshTokenWithContext (githubToken : String) (out : Nat → Bool)
    (deadline : Option Nat) : List RefreshEvent × RefreshResult :=
  if githubToken = "" then ([], .noGitHubToken)
  else refreshAttemptsCtx out deadline 0 1 maxRefreshRetries

/-- Number of exchange attempts recorded in a trace. -/
def attemptCount (events : List RefreshEvent) : Nat :=
  (events.filter fun e => match e with | .attempt _ => true | _ => false).length

/-- The delays slept, in trace order. -/
def sleepsOf (events : List RefreshEvent) : List Nat :=
  events.filterMap fun e => match e with | .sleep s => some s | _ => none

/-- C5 (counterexample): in the run where every exchange fails (and no
deadline interferes), the delays actually slept are 2 s and 8 s — the
delay before attempt 2 is 2 s, not `2·2² = 8` s, and no 18 s delay is
ever slept (after the third failure the function returns at once).  The
claim's schedule "delay before attempt n is 2·n², i.e. 2 s, 8 s, 18 s"
is therefore false on the code. -/
theorem claimC5_counterexample :
    sleepsOf (refreshToken "gh" fun _ => false).1 = [2, 8] ∧
      sleepsOf (refreshToken "gh" fun _ => false).1 ≠ [8, 18] ∧
      RefreshEvent.sleep 18 ∉ (refreshToken "gh" fun _ => false).1 := by
  refine ⟨?_, ?_, ?_⟩ <;> decide

/-- C5 (amended): with a GitHub token present, both refresh
implementations make at most `maxRefreshRetries = 3` attempts, and the
delays slept are exactly `2·n²` seconds after each failed non-final
attempt `n` — i.e. 2 s after attempt 1 and 8 s after attempt 2, never
18 s.  In `RefreshTokenWithContext` the sleep is cancellable: if the
context deadline expires strictly before the first 2 s sleep completes
(with attempt 1 failing), the run stops and returns the context's
cancellation error; the `main`-package `refreshToken` consults no
deadline at all. -/
theorem claimC5_theorem (gh : String) (out : Nat → Bool) (d : Nat)
    (hgh : gh ≠ "") :
    attemptCount (refreshToken gh out).1 ≤ maxRefreshRetries ∧
      (∀ deadline, attemptCount (refreshTokenWithContext gh out deadline).1 ≤
        maxRefreshRetries) ∧
      sleepsOf (refreshToken gh out).1 =
        (List.range (attemptCount (refreshToken gh out).1 - 1)).map
          (fun i => baseRetryDelay * (i + 1) * (i + 1)) ∧
      (out 1 = false → d < 2 →
        (refreshTokenWithContext gh out (some d)).2 = .ctxCancelled) := by
  refine ⟨?_, ?_, ?_, ?_⟩
  · unfold refreshToken
    by_cases h1 : out 1 <;> by_cases h2 : out 2 <;> by_cases h3 : out 3 <;>
      simp [hgh, refreshAttempts, h1, h2, h3, maxRefreshRetries, attemptCount]
  · intro deadline
    unfold refreshTokenWithContext
    by_cases h1 : out 1 <;> by_cases h2 : out 2 <;> by_cases h3 : out 3 <;>
      cases deadline with
      | none =>
          simp [hgh, refreshAttemptsCtx, h1, h2, h3, maxRefreshRetries,
            attemptCount]
      | some d =>
          by_cases hd1 : d < 2 <;> by_cases hd2 : d < 10 <;>
            simp [hgh, refreshAttemptsCtx, h1, h2, h3, maxRefreshRetries,
              attemptCount, baseRetryDelay, hd1, hd2]
  · unfold refreshToken
    by_cases h1 : out 1 <;> by_cases h2 : out 2 <;> by_cases h3 : out 3 <;>
      simp [hgh, refreshAttempts, h1, h2, h3, maxRefreshRetries, attemptCount,
        sleepsOf, baseRetryDelay, List.range_succ]
  · intro h1 hd
    unfold refreshTokenWithContext
    simp [hgh, refreshAttemptsCtx, h1, maxRefreshRetries, baseRetryDelay, hd]

/-- C5 (witness): the amended statement at the all-failing oracle with a
1 s deadline: at most 3 attempts, sleeps `[2, 8]` in the undeadlined run,
and the 1 s deadline cancels the context-aware run. -/
theorem claimC5_witness :
    attemptCount (refreshToken "gh" (fun _ => false)).1 ≤ maxRefreshRetries ∧
      (∀ deadline,
        attemptCount (refreshTokenWithContext "gh" (fun _ => false) deadline).1 ≤
          maxRefreshRetries) ∧
      sleepsOf (refreshToken "gh" (fun _ => false)).1 =
        (List.range
            (attemptCount (refreshToken "gh" (fun _ => false)).1 - 1)).map
          (fun i => baseRetryDelay * (i + 1) * (i + 1)) ∧
      ((fun _ : Nat => false) 1 = false → 1 < 2 →
        (refreshTokenWithContext "gh" (fun _ => false) (some 1)).2 =
          .ctxCancelled) :=
  claimC5_theorem "gh" (fun _ => false) 1 (by decide)

/-! ## Chat-completions upstream retry (`proxy.go` `isRetriableError`,
`makeRequestWithRetry`)

`client.Do` per attempt either yields a transport error or a response
with a status code; that is the oracle `out : Nat → ChatOutcome`
(indexed from 1 like the source's loop counter).  The run is recorded as
a trace: each attempt, each `resp.Body.Close()`, each retry sleep. -/

/-- `maxChatRetries = 3` (`proxy.go`). -/
def maxChatRetries : Nat := 3

/-- `baseChatRetryDelay = 1` second (`proxy.go`). -/
def baseChatRetryDelay : Nat := 1

/-- `isRetriableError` (`proxy.go`): any transport error is retriable;
otherwise retry on `status ≥ 500`, 429 or 408. -/
def isRetriableError (statusCode : Nat) (hasNetworkErr : Bool) : Bool :=
  if hasNetworkErr then true
  else decide (statusCode ≥ 500) || statusCode == 429 || statusCode == 408

/-- Outcome of one `client.Do(retryReq)` call. -/
inductive ChatOutcome where
  | transportError
  | response (status : Nat)
deriving DecidableEq, Repr

/-- How the source classifies the outcome, via `isRetriableError`. -/
def ChatOutcome.retriable : ChatOutcome → Bool
  | .transportError => isRetriableError 0 true
  | .response c => isRetriableError c false

/-- What `makeRequestWithRetry` returns to its caller: a response (with
its status) or the final transport error. -/
inductive ChatResult where
  | ok (status : Nat)
  | transportFailed
deriving DecidableEq, Repr

/-- What `makeRequestWithRetry` hands back for a last outcome: the
response (even a failed one is returned after the budget), or the
transport error. -/
def ChatOutcome.result : ChatOutcome → ChatResult
  | .transportError => .transportFailed
  | .response c => .ok c

/-- One observable step of `makeRequestWithRetry`. -/
inductive ChatEvent where
  | attempt (n : Nat)
  | closeBody (n : Nat)
  | sleep (secs : Nat)
deriving DecidableEq, Repr

/-- The loop of `makeRequestWithRetry` (`proxy.go`): a transport error on
the last attempt is returned as an error, otherwise slept over and
retried; a non-retriable response is returned at once; a retriable
response has its body closed, and is either returned as-is (last
attempt) or slept over and retried. -/
def makeRequestWithRetry (out : Nat → ChatOutcome) (attempt : Nat) :
    Nat → List ChatEvent × ChatResult
  | 0 => ([], .transportFailed)
  | fuel + 1 =>
      match out attempt with
      | .transportError =>
          if attempt = maxChatRetries then
            ([.attempt attempt], .transportFailed)
          else
            let rest := makeRequestWithRetry out (attempt + 1) fuel
            (.attempt attempt ::
              .sleep (baseChatRetryDelay * attempt * attempt) :: rest.1, rest.2)
      | .response c =>
          if isRetriableError c false = false then
            ([.attempt attempt], .ok c)
          else if attempt = maxChatRetries then
            ([.attempt attempt, .closeBody attempt], .ok c)
          else
            let rest := makeRequestWithRetry out (attempt + 1) fuel
            (.attempt attempt :: .closeBody attempt ::
              .sleep (baseChatRetryDelay * attempt * attempt) :: rest.1, rest.2)

/-- A full run of `makeRequestWithRetry` starting at attempt 1. -/
def chatRun (out : Nat → ChatOutcome) : List ChatEvent × ChatResult :=
  makeRequestWithRetry out 1 maxChatRetries

/-- Number of upstream attempts recorded in a trace. -/
def chatAttemptCount (events : List ChatEvent) : Nat :=
  (events.filter fun e => match e with | .attempt _ => true | _ => false).length

/-- C6: the chat-completions upstream call makes at most 3 attempts; the
number of attempts is exactly one more than the retriable outcomes that
precede the retry budget (so an attempt is retried iff it was a
transport error or a 5xx/429/408 status, and never after attempt 3); any
other response ends the run immediately with that response as the
result; and whenever a retried attempt `n` returned a response, its body
is closed (`closeBody n`) before attempt `n+1` starts. -/
lemma isRetriableError_network (c : Nat) : isRetriableError c true = true := rfl

lemma chatRun_count_le (out : Nat → ChatOutcome) :
    chatAttemptCount (chatRun out).1 ≤ maxChatRetries := by
  rcases ho1 : out 1 with _ | c1 <;>
  rcases ho2 : out 2 with _ | c2 <;>
  rcases ho3 : out 3 with _ | c3 <;>
  (try by_cases hr1 : isRetriableError c1 false = false) <;>
  (try by_cases hr2 : isRetriableError c2 false = false) <;>
  (try by_cases hr3 : isRetriableError c3 false = false) <;>
  simp [*, chatRun, makeRequestWithRetry, maxChatRetries, baseChatRetryDelay,
    chatAttemptCount, isRetriableError_network]

lemma chatRun_count_eq (out : Nat → ChatOutcome) :
    chatAttemptCount (chatRun out).1 =
      (if (out 1).retriable = false then 1
       else if (out 2).retriable = false then 2 else 3) := by
  rcases ho1 : out 1 with _ | c1 <;>
  rcases ho2 : out 2 with _ | c2 <;>
  rcases ho3 : out 3 with _ | c3 <;>
  (try by_cases hr1 : isRetriableError c1 false = false) <;>
  (try by_cases hr2 : isRetriableError c2 false = false) <;>
  (try by_cases hr3 : isRetriableError c3 false = false) <;>
  simp [*, chatRun, makeRequestWithRetry, maxChatRetries, baseChatRetryDelay,
    chatAttemptCount, ChatOutcome.retriable, isRetriableError_network]

lemma chatRun_result (out : Nat → ChatOutcome) :
    (chatRun out).2 = (out (chatAttemptCount (chatRun out).1)).result := by
  rcases ho1 : out 1 with _ | c1 <;>
  rcases ho2 : out 2 with _ | c2 <;>
  rcases ho3 : out 3 with _ | c3 <;>
  (try by_cases hr1 : isRetriableError c1 false = false) <;>
  (try by_cases hr2 : isRetriableError c2 false = false) <;>
  (try by_cases hr3 : isRetriableError c3 false = false) <;>
  simp [*, chatRun, makeRequestWithRetry, maxChatRetries, baseChatRetryDelay,
    chatAttemptCount, ChatOutcome.retriable, ChatOutcome.result,
    isRetriableError_network]

lemma chatRun_closeBody (out : Nat → ChatOutcome) :
    ∀ n c, 1 ≤ n → ChatEvent.attempt (n + 1) ∈ (chatRun out).1 →
      out n = .response c →
      [ChatEvent.closeBody n, ChatEvent.attempt (n + 1)].Sublist
        (chatRun out).1 := by
  rcases ho1 : out 1 with _ | c1 <;>
  rcases ho2 : out 2 with _ | c2 <;>
  rcases ho3 : out 3 with _ | c3 <;>
  (try by_cases hr1 : isRetriableError c1 false = false) <;>
  (try by_cases hr2 : isRetriableError c2 false = false) <;>
  (try by_cases hr3 : isRetriableError c3 false = false) <;>
  (intro n c hn hmem hout
   simp [*, chatRun, makeRequestWithRetry, maxChatRetries,
     baseChatRetryDelay] at hmem
   have hn' : n = 1 ∨ n = 2 := by omega
   rcases hn' with rfl | rfl <;>
   first
   | (exfalso; omega)
   | (rw [ho1] at hout
      exact ChatOutcome.noConfusion hout)
   | (rw [ho2] at hout
      exact ChatOutcome.noConfusion hout)
   | (simp [*, chatRun, makeRequestWithRetry, maxChatRetries,
       baseChatRetryDelay] <;> decide))

theorem claimC6_theorem (out : Nat → ChatOutcome) :
    chatAttemptCount (chatRun out).1 ≤ maxChatRetries ∧
    chatAttemptCount (chatRun out).1 =
      (if (out 1).retriable = false then 1
       else if (out 2).retriable = false then 2 else 3) ∧
    (chatRun out).2 = (out (chatAttemptCount (chatRun out).1)).result ∧
    (∀ n c, 1 ≤ n → ChatEvent.attempt (n + 1) ∈ (chatRun out).1 →
      out n = .response c →
      [ChatEvent.closeBody n, ChatEvent.attempt (n + 1)].Sublist
        (chatRun out).1) :=
  ⟨chatRun_count_le out, chatRun_count_eq out, chatRun_result out,
    chatRun_closeBody out⟩

/-- C6 (witness): the retry contract evaluated at the oracle whose first
attempt returns 503 and whose later attempts return 200: the body of
attempt 1 is closed before attempt 2 starts. -/
theorem claimC6_witness :
    [ChatEvent.closeBody 1, ChatEvent.attempt 2].Sublist
      (chatRun fun n => if n = 1 then .response 503 else .response 200).1 :=
  (claimC6_theorem fun n => if n = 1 then .response 503 else .response 200).2.2.2
    1 503 (by decide) (by decide) (by decide)

/-! ## Request coalescing (`proxy.go` `CoalescingCache.CoalesceRequest`)

Go `interface{}` values are modelled as `GoVal α := Option α`, with
`none` standing for `nil` — the zero value a receive on a closed, empty
Go channel yields.  A Go channel is a buffer plus a closed flag; a
receive either takes the head of the buffer, yields the zero value when
the channel is closed and empty, or blocks (`Option` result, `none` =
would block).

A coalescing window for a key is: the first arriver finds no map entry,
inserts a 1-capacity channel and becomes the producer; every caller
arriving while the entry exists becomes a waiter.  The producer runs
`fn()`, sends the single result into the channel, closes it, deletes the
entry and returns its own result.  Each waiter performs one receive. -/

/-- A Go `interface{}` value: `none` is `nil`. -/
abbrev GoVal (α : Type) := Option α

/-- A Go channel: buffered values plus the closed flag. -/
structure GoChan (α : Type) where
  buf : List α
  isClosed : Bool
deriving DecidableEq, Repr

/-- `make(chan interface{}, 1)`. -/
def GoChan.new {α : Type} : GoChan α := ⟨[], false⟩

/-- `ch <- v` (the buffer has room in every reachable state of this
window, so the send never blocks). -/
def GoChan.send {α : Type} (ch : GoChan α) (v : α) : GoChan α :=
  { ch with buf := ch.buf ++ [v] }

/-- `close(ch)`. -/
def GoChan.closeCh {α : Type} (ch : GoChan α) : GoChan α :=
  { ch with isClosed := true }

/-- `<-ch`: take the buffered head; on a closed empty channel yield the
zero value; otherwise block (`none`). -/
def GoChan.recv {α : Type} [Inhabited α] (ch : GoChan α) :
    Option (α × GoChan α) :=
  match ch.buf with
  | v :: rest => some (v, { ch with buf := rest })
  | [] => if ch.isClosed then some (default, ch) else none

/-- `n` successive receives on a channel (the order in which the runtime
unblocks waiters is irrelevant here: each waiter performs exactly one
receive). -/
def GoChan.recvSeq {α : Type} [Inhabited α] (ch : GoChan α) :
    Nat → List α
  | 0 => []
  | n + 1 =>
      match ch.recv with
      | some (x, ch2) => x :: ch2.recvSeq n
      | none => []

/-- Role a caller of `CoalesceRequest` ends up with. -/
inductive CoalesceRole where
  | producer
  | waiter
deriving DecidableEq, Repr

/-- The map-lock phase of `CoalesceRequest` for one key: if an entry is
in progress the caller waits; otherwise it inserts the entry and becomes
the producer. -/
def coalesceArrive (inProgress : Bool) : CoalesceRole × Bool :=
  if inProgress then (.waiter, true) else (.producer, true)

/-- Roles assigned to `k` callers arriving during one window (the entry
is deleted only after the producer finishes, i.e. after the window). -/
def coalesceRoles (inProgress : Bool) : Nat → List CoalesceRole
  | 0 => []
  | k + 1 =>
      let r := coalesceArrive inProgress
      r.1 :: coalesceRoles r.2 k

/-- The producer path of `CoalesceRequest`: run `fn`, send the result,
close the channel, return the result (the map delete does not affect the
channel). -/
def coalesceProducerPath {V : Type} (fn : Unit → GoVal V) :
    GoVal V × GoChan (GoVal V) :=
  let result := fn ()
  let ch := GoChan.new.send result
  (result, ch.closeCh)

lemma coalesceRoles_producer_count (inProgress : Bool) (k : Nat) :
    (coalesceRoles inProgress k).count CoalesceRole.producer =
      if inProgress ∨ k = 0 then 0 else 1 := by
  induction k generalizing inProgress with
  | zero => simp [coalesceRoles]
  | succ k ih =>
      cases inProgress with
      | false =>
          simp [coalesceRoles, coalesceArrive, ih, List.count_cons]
      | true =>
          simp [coalesceRoles, coalesceArrive, ih, List.count_cons]

lemma recvSeq_closed_empty {α : Type} [Inhabited α] (n : Nat) :
    (GoChan.recvSeq (⟨[], true⟩ : GoChan α) n) =
      List.replicate n default := by
  induction n with
  | zero => rfl
  | succ n ih => simp [GoChan.recvSeq, GoChan.recv, ih, List.replicate]

/-- C2 (failing input): the broadcast invariant breaks as soon as two
callers wait on the same window.  With producer result `some 42` and two
waiters, the producer sends one value into the 1-capacity channel and
closes it: the first receive yields `some 42` but the second receive
finds the channel closed and empty and yields the zero value `nil`
(`none`) — not the value the producer computed, although the source's
own comment says "Broadcast result to all waiting goroutines" and the
models handler type-asserts the received value non-nil. -/
theorem claimC2_counterexample :
    (coalesceProducerPath (fun _ => some (42 : Nat))).2.recvSeq 2 =
        [some 42, none] ∧
      ((none : GoVal Nat) = some 42 → False) := by
  constructor
  · rfl
  · intro h
    cases h

/-- C2 (what the code actually guarantees): for every key, exactly one
of the callers arriving during an active coalescing window becomes the
producer (the rest become waiters); the producer returns exactly the
value `fn()` it computed, and the first waiter receives that same value;
but the channel carries a single value and is then closed, so each
waiter beyond the first receives the zero value `nil` instead of the
producer's result. -/
theorem claimC2_theorem {V : Type} (fn : Unit → GoVal V) (k n : Nat)
    (hk : 1 ≤ k) (hn : 1 ≤ n) :
    (coalesceRoles false k).count CoalesceRole.producer = 1 ∧
      (coalesceProducerPath fn).1 = fn () ∧
      (coalesceProducerPath fn).2.recvSeq n =
        fn () :: List.replicate (n - 1) none := by
  refine ⟨?_, rfl, ?_⟩
  · rw [coalesceRoles_producer_count]
    simp
    omega
  · obtain ⟨m, rfl⟩ : ∃ m, n = m + 1 := ⟨n - 1, by omega⟩
    simp only [coalesceProducerPath, GoChan.recvSeq, GoChan.recv,
      GoChan.new, GoChan.send, GoChan.closeCh, List.nil_append]
    simpa using recvSeq_closed_empty m

/-- C2 (witness): the amended statement with producer result `some 7`,
three callers and two waiters: one producer, and the receives yield
`[some 7, none]`. -/
theorem claimC2_witness :
    (coalesceRoles false 3).count CoalesceRole.producer = 1 ∧
      (coalesceProducerPath (fun _ => some (7 : Nat))).1 = some 7 ∧
      (coalesceProducerPath (fun _ => some (7 : Nat))).2.recvSeq 2 =
        some 7 :: List.replicate 1 none :=
  claimC2_theorem (fun _ => some (7 : Nat)) 3 2 (by decide) (by decide)

/-! ## Proxy handler timeout path and response wrapper (`proxy.go`
`proxyHandler`, `responseWrapper`)

The wrapper (`responseWrapper`) carries the `headersSent` flag; the
underlying `http.ResponseWriter` is modelled as the record of header and
body writes it receives.  Writes can reach the underlying writer two
ways, exactly as in the source: through the wrapper (the worker's
`processProxyRequest` writes via `respWrapper`), or directly — the
handler's error paths call `http.Error(w, ...)` on the *raw* writer `w`,
not on the wrapper.  The worker job submitted to the pool is not stopped
by the handler's `select`: the retry requests are built with
`http.NewRequest` (no context), so a timed-out request's worker can
still complete and write through the wrapper afterwards. -/

/-- Record of what the underlying `http.ResponseWriter` received. -/
structure UnderlyingWriter where
  headerWrites : List Nat
  bodyWrites : Nat
deriving DecidableEq, Repr

/-- The handler's per-request write state: the `responseWrapper` flag
plus the underlying writer. -/
structure WriteState where
  headersSent : Bool
  underlying : UnderlyingWriter
deriving DecidableEq, Repr

/-- Fresh state at the start of `proxyHandler`. -/
def WriteState.initial : WriteState :=
  ⟨false, ⟨[], 0⟩⟩

/-- `(*responseWrapper).WriteHeader` (`proxy.go`): forward only when the
flag is not yet set, and set it. -/
def WriteState.wrapperWriteHeader (st : WriteState) (code : Nat) : WriteState :=
  if st.headersSent then st
  else
    { headersSent := true
      underlying :=
        { st.underlying with
          headerWrites := st.underlying.headerWrites ++ [code] } }

/-- `(*responseWrapper).Write` (`proxy.go`): set the flag (if unset) and
forward the body bytes unconditionally. -/
def WriteState.wrapperWrite (st : WriteState) : WriteState :=
  { headersSent := true
    underlying :=
      { st.underlying with bodyWrites := st.underlying.bodyWrites + 1 } }

/-- `http.Error(w, msg, code)` on the raw writer: one header write and
one body write on the underlying writer, bypassing the wrapper's flag. -/
def WriteState.rawHttpError (st : WriteState) (code : Nat) : WriteState :=
  { st with
    underlying :=
      { headerWrites := st.underlying.headerWrites ++ [code]
        bodyWrites := st.underlying.bodyWrites + 1 } }

/-- How the handler's `select` resolves. -/
inductive HandlerOutcome where
  | jobDone (failed : Bool)
  | ctxTimeout
deriving DecidableEq, Repr

/-- The tail of `proxyHandler` (`proxy.go`): a worker error yields a 500
and the context expiring yields a 408 — each only when the wrapper has
not recorded any write. -/
def proxyHandlerFinish (st : WriteState) : HandlerOutcome → WriteState
  | .jobDone false => st
  | .jobDone true => if st.headersSent then st else st.rawHttpError 500
  | .ctxTimeout => if st.headersSent then st else st.rawHttpError 408

/-- An operation the worker performs through the wrapper. -/
inductive WriterOp where
  | writeHeader (code : Nat)
  | write
deriving DecidableEq, Repr

/-- Apply a sequence of wrapper operations. -/
def WriteState.applyOps (st : WriteState) (l : List WriterOp) : WriteState :=
  l.foldl (fun s op =>
    match op with
    | .writeHeader code => s.wrapperWriteHeader code
    | .write => s.wrapperWrite) st

/-- Invariant carried by wrapper-only writing: at most one header write
is ever forwarded, and none before the flag is set. -/
def WriteState.WrapperInv (st : WriteState) : Prop :=
  st.underlying.headerWrites.length ≤ 1 ∧
    (st.headersSent = false → st.underlying.headerWrites.length = 0)

lemma WriteState.wrapperInv_applyOps (st : WriteState) (l : List WriterOp)
    (h : st.WrapperInv) : (st.applyOps l).WrapperInv := by
  induction l generalizing st with
  | nil => exact h
  | cons op rest ih =>
      refine ih _ ?_
      rcases h with ⟨h1, h2⟩
      cases op with
      | writeHeader code =>
          by_cases hs : st.headersSent
          · exact ⟨by simpa [WriteState.wrapperWriteHeader, hs] using h1,
              by simp [WriteState.wrapperWriteHeader, hs]⟩
          · have h0 := h2 (by simpa using hs)
            refine ⟨?_, by simp [WriteState.wrapperWriteHeader, hs]⟩
            simp [WriteState.wrapperWriteHeader, hs, h0]
      | write =>
          exact ⟨by simpa [WriteState.wrapperWrite] using h1,
            by simp [WriteState.wrapperWrite]⟩

/-- C7 (counterexample): a real interleaving writes two response
headers.  The request times out before the worker has written anything,
so the handler emits the 408 via `http.Error` on the raw writer — which
does not set the wrapper's `headersSent` flag.  The worker job is not
cancelled (the retried upstream requests carry no context) and later
forwards its `WriteHeader(200)` through the wrapper, whose flag is still
false: the underlying writer receives two header writes, `[408, 200]`. -/
theorem claimC7_counterexample :
    ((proxyHandlerFinish WriteState.initial .ctxTimeout).wrapperWriteHeader
          200).underlying.headerWrites = [408, 200] ∧
      1 <
        ((proxyHandlerFinish WriteState.initial .ctxTimeout).wrapperWriteHeader
            200).underlying.headerWrites.length := by
  constructor <;> decide

/-- C7 (amended): the handler writes a 408 on context expiry iff the
wrapper has tracked no header or body write (and likewise the 500 on a
worker error); once the wrapper records any write, every error path
leaves the response untouched.  Through the wrapper itself, at most one
header write is ever forwarded.  However, the error-path 408/500 is
written on the raw writer and does not set the wrapper's flag, so a
worker completing after the timeout can still forward one more header
write (the counterexample): the "no handler writes a header more than
once" part of the claim holds only for wrapper-mediated writes. -/
theorem claimC7_theorem (st : WriteState) (oc : HandlerOutcome)
    (l : List WriterOp) :
    (st.headersSent = false →
      (proxyHandlerFinish st .ctxTimeout).underlying.headerWrites =
          st.underlying.headerWrites ++ [408] ∧
        (proxyHandlerFinish st (.jobDone true)).underlying.headerWrites =
          st.underlying.headerWrites ++ [500]) ∧
      (st.headersSent = true → proxyHandlerFinish st oc = st) ∧
      (WriteState.initial.applyOps l).underlying.headerWrites.length ≤ 1 := by
  refine ⟨?_, ?_, ?_⟩
  · intro hs
    constructor <;>
      simp [proxyHandlerFinish, WriteState.rawHttpError, hs]
  · intro hs
    cases oc with
    | jobDone failed =>
        cases failed <;> simp [proxyHandlerFinish, hs]
    | ctxTimeout => simp [proxyHandlerFinish, hs]
  · exact (WriteState.wrapperInv_applyOps WriteState.initial l
      ⟨by simp [WriteState.initial], by simp [WriteState.initial]⟩).1

/-- C7 (witness): the amended statement on the fresh state with a
timeout outcome and the worker op sequence `WriteHeader 200; Write;
WriteHeader 201`: the 408 is appended on the raw writer, and the wrapper
forwards at most one header. -/
theorem claimC7_witness :
    ((WriteState.initial.headersSent = false →
      (proxyHandlerFinish WriteState.initial .ctxTimeout).underlying.headerWrites =
          WriteState.initial.underlying.headerWrites ++ [408] ∧
        (proxyHandlerFinish WriteState.initial
            (.jobDone true)).underlying.headerWrites =
          WriteState.initial.underlying.headerWrites ++ [500]) ∧
      (WriteState.initial.headersSent = true →
        proxyHandlerFinish WriteState.initial .ctxTimeout = WriteState.initial) ∧
      (WriteState.initial.applyOps
          [WriterOp.writeHeader 200, WriterOp.write,
            WriterOp.writeHeader 201]).underlying.headerWrites.length ≤ 1) :=
  claimC7_theorem WriteState.initial .ctxTimeout
    [WriterOp.writeHeader 200, WriterOp.write, WriterOp.writeHeader 201]

/-! ## Worker pools (`internal/server.go` `NewWorkerPool` / `NewServer`,
`proxy.go` `NewWorkerPool`)

Only the sizing (worker count and job-queue capacity) and the blocking
`Submit` are modelled.  `runtime.NumCPU()` is a parameter `cpu ≥ 1`; the
requested worker count is an `Int` because the source's guard is
`workers <= 0`. -/

/-- `workerMultiplier = 2` (`internal/server.go`). -/
def workerMultiplier : Nat := 2

/-- Sizing of `NewWorkerPool` in `internal/server.go`: a non-positive
request falls back to `cpu/2` clamped to `[2,16]`; a positive request is
taken as-is; the queue capacity is `workers * workerMultiplier * 2`. -/
def newWorkerPoolInternalSize (cpu : Nat) (workersArg : Int) : Nat × Nat :=
  let workers : Nat :=
    if workersArg ≤ 0 then
      let w := cpu / 2
      let w := if w < 2 then 2 else w
      let w := if w > 16 then 16 else w
      w
    else workersArg.toNat
  (workers, workers * workerMultiplier * 2)

/-- The pool `NewServer` builds (`internal/server.go`):
`NewWorkerPool(runtime.NumCPU() * workerMultiplier)`. -/
def newServerPoolSize (cpu : Nat) : Nat × Nat :=
  newWorkerPoolInternalSize cpu ((cpu : Int) * (workerMultiplier : Int))

/-- Sizing of `NewWorkerPool` in `proxy.go`: a non-positive request
falls back to `runtime.NumCPU()` (no clamp); the queue capacity is
`workers * 2`. -/
def newWorkerPoolMainSize (cpu : Nat) (workersArg : Int) : Nat × Nat :=
  let workers : Nat := if workersArg ≤ 0 then cpu else workersArg.toNat
  (workers, workers * 2)

/-- The package-level pool of `proxy.go`:
`NewWorkerPool(runtime.NumCPU() * 2)`. -/
def globalWorkerPoolSize (cpu : Nat) : Nat × Nat :=
  newWorkerPoolMainSize cpu ((cpu : Int) * 2)

/-- The job queue, as the number of buffered jobs against its capacity. -/
structure JobQueue where
  pending : Nat
  capacity : Nat
deriving DecidableEq, Repr

/-- Outcome of `Submit`: a send on a buffered channel either enqueues or
blocks the submitter; there is no dropping outcome. -/
inductive SubmitOutcome where
  | enqueued (q : JobQueue)
  | blocked
deriving DecidableEq, Repr

/-- `(*WorkerPool).Submit` (`proxy.go` / `internal/server.go`):
`wp.jobQueue <- job`. -/
def WorkerPool.submit (q : JobQueue) : SubmitOutcome :=
  if q.pending < q.capacity then .enqueued ⟨q.pending + 1, q.capacity⟩
  else .blocked

/-- C8 (counterexample): on a 16-CPU machine the server's pool is
created with `NewWorkerPool(16·2)` — the positive argument is taken
as-is, so the pool has 32 workers, outside the claimed range `[2,16]`
(the clamp applies only to the `workers ≤ 0` fallback, which computes
`cpu/2`, not `2·cpu`).  Moreover the `proxy.go` global pool's queue
capacity is `2·workers`, not `4·workers`: with 4 CPUs it is 16, not 32. -/
theorem claimC8_counterexample :
    (newServerPoolSize 16).1 = 32 ∧ ¬ (newServerPoolSize 16).1 ≤ 16 ∧
      (globalWorkerPoolSize 4).2 = 16 ∧
      (globalWorkerPoolSize 4).2 ≠ 4 * (globalWorkerPoolSize 4).1 := by
  refine ⟨?_, ?_, ?_, ?_⟩ <;> decide

/-- C8 (amended): for every `cpu ≥ 1`: the server's pool
(`internal/server.go`) is created with `2·cpu` workers — unclamped,
since the passed count is positive — and a queue of capacity
`4·workers`; the `[2,16]` clamp applies only when a non-positive worker
count is requested, and then to `cpu/2`; the `proxy.go` global pool also
has `2·cpu` workers but a queue of capacity `2·workers`; and `Submit` on
a full queue blocks the submitter (it never drops the job), while on a
non-full queue it enqueues. -/
theorem claimC8_theorem (cpu : Nat) (arg : Int) (q : JobQueue)
    (hcpu : 1 ≤ cpu) :
    (newServerPoolSize cpu).1 = 2 * cpu ∧
      (newServerPoolSize cpu).2 = 4 * (newServerPoolSize cpu).1 ∧
      (arg ≤ 0 → 2 ≤ (newWorkerPoolInternalSize cpu arg).1 ∧
        (newWorkerPoolInternalSize cpu arg).1 ≤ 16) ∧
      (globalWorkerPoolSize cpu).1 = 2 * cpu ∧
      (globalWorkerPoolSize cpu).2 = 2 * (globalWorkerPoolSize cpu).1 ∧
      (q.capacity ≤ q.pending → WorkerPool.submit q = .blocked) ∧
      (q.pending < q.capacity →
        WorkerPool.submit q = .enqueued ⟨q.pending + 1, q.capacity⟩) := by
  have harg2 : ¬ ((cpu : Int) * 2 ≤ 0) := by omega
  refine ⟨?_, ?_, ?_, ?_, ?_, ?_, ?_⟩
  · simp [newServerPoolSize, newWorkerPoolInternalSize, workerMultiplier, harg2]
    omega
  · simp [newServerPoolSize, newWorkerPoolInternalSize, workerMultiplier, harg2]
    omega
  · intro hle
    simp only [newWorkerPoolInternalSize, if_pos hle]
    by_cases hw1 : cpu / 2 < 2
    · simp [hw1]
    · by_cases hw2 : 16 < cpu / 2 <;> simp [hw1, hw2] <;> omega
  · simp [globalWorkerPoolSize, newWorkerPoolMainSize, harg2]
    omega
  · simp [globalWorkerPoolSize, newWorkerPoolMainSize, harg2]
    omega
  · intro hfull
    simp [WorkerPool.submit, Nat.not_lt.mpr hfull]
  · intro hroom
    simp [WorkerPool.submit, hroom]

/-- C8 (witness): the amended sizing on a 4-CPU machine with a
non-positive requested count and a full 2-slot queue. -/
theorem claimC8_witness :
    (newServerPoolSize 4).1 = 2 * 4 ∧
      (newServerPoolSize 4).2 = 4 * (newServerPoolSize 4).1 ∧
      ((0 : Int) ≤ 0 → 2 ≤ (newWorkerPoolInternalSize 4 0).1 ∧
        (newWorkerPoolInternalSize 4 0).1 ≤ 16) ∧
      (globalWorkerPoolSize 4).1 = 2 * 4 ∧
      (globalWorkerPoolSize 4).2 = 2 * (globalWorkerPoolSize 4).1 ∧
      ((⟨2, 2⟩ : JobQueue).capacity ≤ (⟨2, 2⟩ : JobQueue).pending →
        WorkerPool.submit ⟨2, 2⟩ = .blocked) ∧
      ((⟨2, 2⟩ : JobQueue).pending < (⟨2, 2⟩ : JobQueue).capacity →
        WorkerPool.submit ⟨2, 2⟩ = .enqueued ⟨3, 2⟩) :=
  claimC8_theorem 4 0 ⟨2, 2⟩ (by decide)

/-! ## Configuration persistence (`config.go` `loadConfig` / `saveConfig`,
`main.go` `Config`)

`saveConfig` JSON-encodes the full struct (no `omitempty`, so every
field is emitted); `loadConfig` decodes into a zero-valued struct
(missing or non-matching fields keep Go's zero value), then defaults the
port to 8081 when 0 and fills zero timeouts via `setDefaultTimeouts`.
The JSON layer is embedded as a small value tree with the exact field
names of the struct tags. -/

/-- The nested `Timeouts` struct of `Config` (`main.go`). -/
structure Timeouts where
  httpClient : Int
  serverRead : Int
  serverWrite : Int
  serverIdle : Int
  proxyContext : Int
  circuitBreaker : Int
  keepAlive : Int
  tlsHandshake : Int
  dialTimeout : Int
  idleConnTimeout : Int
deriving DecidableEq, Repr

/-- `Config` (`main.go`, `main`-package version with timeouts). -/
structure Config where
  port : Int
  githubToken : String
  copilotToken : String
  expiresAt : Int
  refreshIn : Int
  timeouts : Timeouts
deriving DecidableEq, Repr

/-- A JSON value, as far as `Config` needs. -/
inductive JValue where
  | num (n : Int)
  | str (s : String)
  | obj (fields : List (String × JValue))

/-- Field lookup in a JSON object. -/
def lookupField {α : Type} : List (String × α) → String → Option α
  | [], _ => none
  | (k, v) :: rest, key => if k = key then some v else lookupField rest key

/-- Decoding an `int`/`int64` field: Go leaves the zero value when the
field is absent. -/
def decInt (fields : List (String × JValue)) (key : String) : Int :=
  match lookupField fields key with
  | some (.num n) => n
  | _ => 0

/-- Decoding a `string` field. -/
def decStr (fields : List (String × JValue)) (key : String) : String :=
  match lookupField fields key with
  | some (.str s) => s
  | _ => ""

/-- `json.NewEncoder(f).Encode(cfg)` of the `Timeouts` struct, with the
tag names of `main.go`. -/
def encodeTimeouts (t : Timeouts) : JValue :=
  .obj [("http_client", .num t.httpClient),
        ("server_read", .num t.serverRead),
        ("server_write", .num t.serverWrite),
        ("server_idle", .num t.serverIdle),
        ("proxy_context", .num t.proxyContext),
        ("circuit_breaker", .num t.circuitBreaker),
        ("keep_alive", .num t.keepAlive),
        ("tls_handshake", .num t.tlsHandshake),
        ("dial_timeout", .num t.dialTimeout),
        ("idle_conn_timeout", .num t.idleConnTimeout)]

/-- `saveConfig` (`config.go`): encode the whole struct. -/
def saveConfig (c : Config) : JValue :=
  .obj [("port", .num c.port),
        ("github_token", .str c.githubToken),
        ("copilot_token", .str c.copilotToken),
        ("expires_at", .num c.expiresAt),
        ("refresh_in", .num c.refreshIn),
        ("timeouts", encodeTimeouts c.timeouts)]

/-- Decoding the `Timeouts` object (zero values when absent). -/
def decodeTimeouts (j : JValue) : Timeouts :=
  match j with
  | .obj fs =>
      { httpClient := decInt fs "http_client"
        serverRead := decInt fs "server_read"
        serverWrite := decInt fs "server_write"
        serverIdle := decInt fs "server_idle"
        proxyContext := decInt fs "proxy_context"
        circuitBreaker := decInt fs "circuit_breaker"
        keepAlive := decInt fs "keep_alive"
        tlsHandshake := decInt fs "tls_handshake"
        dialTimeout := decInt fs "dial_timeout"
        idleConnTimeout := decInt fs "idle_conn_timeout" }
  | _ => ⟨0, 0, 0, 0, 0, 0, 0, 0, 0, 0⟩

/-- `json.NewDecoder(file).Decode(&cfg)` into a zero-valued `Config`. -/
def decodeConfig (j : JValue) : Config :=
  match j with
  | .obj fs =>
      { port := decInt fs "port"
        githubToken := decStr fs "github_token"
        copilotToken := decStr fs "copilot_token"
        expiresAt := decInt fs "expires_at"
        refreshIn := decInt fs "refresh_in"
        timeouts :=
          match lookupField fs "timeouts" with
          | some tj => decodeTimeouts tj
          | none => ⟨0, 0, 0, 0, 0, 0, 0, 0, 0, 0⟩ }
  | _ => ⟨0, "", "", 0, 0, ⟨0, 0, 0, 0, 0, 0, 0, 0, 0, 0⟩⟩

/-- `setDefaultTimeouts` (`config.go`): fill each zero timeout with its
default. -/
def setDefaultTimeouts (c : Config) : Config :=
  let t := c.timeouts
  let t := if t.httpClient = 0 then { t with httpClient := 300 } else t
  let t := if t.serverRead = 0 then { t with serverRead := 30 } else t
  let t := if t.serverWrite = 0 then { t with serverWrite := 300 } else t
  let t := if t.serverIdle = 0 then { t with serverIdle := 120 } else t
  let t := if t.proxyContext = 0 then { t with proxyContext := 300 } else t
  let t := if t.circuitBreaker = 0 then { t with circuitBreaker := 30 } else t
  let t := if t.keepAlive = 0 then { t with keepAlive := 30 } else t
  let t := if t.tlsHandshake = 0 then { t with tlsHandshake := 10 } else t
  let t := if t.dialTimeout = 0 then { t with dialTimeout := 10 } else t
  let t := if t.idleConnTimeout = 0 then { t with idleConnTimeout := 90 } else t
  { c with timeouts := t }

/-- `loadConfig` (`config.go`) on the path where the file exists and
decodes: default the port when 0, then default the timeouts. -/
def loadConfig (j : JValue) : Config :=
  let cfg := decodeConfig j
  let cfg := if cfg.port = 0 then { cfg with port := 8081 } else cfg
  setDefaultTimeouts cfg

/-- All ten timeout fields are non-zero (as after default-filling). -/
def Timeouts.AllSet (t : Timeouts) : Prop :=
  t.httpClient ≠ 0 ∧ t.serverRead ≠ 0 ∧ t.serverWrite ≠ 0 ∧
    t.serverIdle ≠ 0 ∧ t.proxyContext ≠ 0 ∧ t.circuitBreaker ≠ 0 ∧
    t.keepAlive ≠ 0 ∧ t.tlsHandshake ≠ 0 ∧ t.dialTimeout ≠ 0 ∧
    t.idleConnTimeout ≠ 0

lemma decode_saveConfig (c : Config) : decodeConfig (saveConfig c) = c := by
  cases c with
  | mk port gh ct ea ri t =>
      cases t
      simp [saveConfig, decodeConfig, encodeTimeouts, decodeTimeouts,
        lookupField, decInt, decStr]

/-- C9: loading a saved configuration returns it unchanged, provided the
port is non-zero and every timeout has been filled (non-zero): decode is
the exact inverse of encode field-by-field, and with nothing left at
zero the port default and `setDefaultTimeouts` are identities. -/
theorem claimC9_theorem (c : Config) (hport : c.port ≠ 0)
    (ht : c.timeouts.AllSet) :
    loadConfig (saveConfig c) = c := by
  obtain ⟨h1, h2, h3, h4, h5, h6, h7, h8, h9, h10⟩ := ht
  unfold loadConfig
  rw [decode_saveConfig]
  simp only [if_neg hport]
  unfold setDefaultTimeouts
  simp [h1, h2, h3, h4, h5, h6, h7, h8, h9, h10]

/-- C9 (witness): round-trip of the fully defaulted config with port
8081 and a token pair. -/
theorem claimC9_witness :
    loadConfig (saveConfig
        ⟨8081, "gh", "ct", 1000, 1500,
          ⟨300, 30, 300, 120, 300, 30, 30, 10, 10, 90⟩⟩) =
      ⟨8081, "gh", "ct", 1000, 1500,
        ⟨300, 30, 300, 120, 300, 30, 30, 10, 10, 90⟩⟩ :=
  claimC9_theorem _ (by decide)
    ⟨by decide, by decide, by decide, by decide, by decide, by decide,
      by decide, by decide, by decide, by decide⟩

/-! ## Models catalog cache (`modelsHandler` in the models half of
`main.go`)

The process-level cache is `cachedModels`/`modelsLoaded`; nothing in the
program ever resets them.  The external catalog fetch
(`fetchModelsFromModelsDev`) is abstracted as a per-request oracle
`fetch : Nat → Option M` (`some` = the parsed `*ModelList` object built
from models.dev, `none` = any failure); `defaultObj` is the `*ModelList`
built from `getDefaultModels()` on the fallback path.  `M` is abstract,
so "the identical object" is equality of the returned value with the one
stored at load time.  Requests are modelled sequentially — each
coalescing window completes before the next request arrives; the
`sync.RWMutex` double-check collapses to a single cache test. -/

/-- One `modelsHandler` producer run against the cache: a hit returns
the cached object with no external contact; a miss contacts models.dev
once, falls back to the default catalog on failure, stores the result
and returns it.  Yields (returned object, new cache, external contacts
made). -/
def modelsStep {M : Type} (defaultObj : M) (fetchResult : Option M)
    (cache : Option M) : M × Option M × Nat :=
  match cache with
  | some m => (m, some m, 0)
  | none =>
      let ml := match fetchResult with
        | some l => l
        | none => defaultObj
      (ml, some ml, 1)

/-- `n` sequential `GET /v1/models` requests from process start:
the list of returned objects, the final cache, and the total number of
contacts to the external catalog source. -/
def modelsRun {M : Type} (defaultObj : M) (fetch : Nat → Option M) :
    Nat → List M × Option M × Nat
  | 0 => ([], none, 0)
  | n + 1 =>
      let prev := modelsRun defaultObj fetch n
      let s := modelsStep defaultObj (fetch n) prev.2.1
      (prev.1 ++ [s.1], s.2.1, prev.2.2 + s.2.2)

/-- The object the first request caches: the fetched catalog, or the
default catalog if the fetch failed. -/
def firstModels {M : Type} (defaultObj : M) (fetch : Nat → Option M) : M :=
  match fetch 0 with
  | some l => l
  | none => defaultObj

lemma modelsRun_spec {M : Type} (defaultObj : M) (fetch : Nat → Option M)
    (n : Nat) (hn : 1 ≤ n) :
    modelsRun defaultObj fetch n =
      (List.replicate n (firstModels defaultObj fetch),
        some (firstModels defaultObj fetch), 1) := by
  induction n with
  | zero => omega
  | succ n ih =>
      rcases Nat.eq_zero_or_pos n with h0 | hpos
      · subst h0
        simp only [modelsRun, modelsStep, firstModels]
        cases fetch 0 <;> simp
      · rw [modelsRun, ih hpos]
        simp [modelsStep, List.replicate_succ]
        exact (List.replicate_succ' _ _).symm

/-- C10: once the first `GET /v1/models` request has loaded the catalog
(from models.dev or, on failure, from the hardcoded default list), the
cache is never invalidated or refreshed: every request in the process —
including the first — returns the very object cached by that first load,
the final cache still holds it, and the external catalog source has been
contacted exactly once for the whole run. -/
theorem claimC10_theorem {M : Type} (defaultObj : M)
    (fetch : Nat → Option M) (n : Nat) (hn : 1 ≤ n) :
    (modelsRun defaultObj fetch n).1 =
        List.replicate n (firstModels defaultObj fetch) ∧
      (modelsRun defaultObj fetch n).2.1 =
        some (firstModels defaultObj fetch) ∧
      (modelsRun defaultObj fetch n).2.2 = 1 := by
  rw [modelsRun_spec defaultObj fetch n hn]
  exact ⟨rfl, rfl, rfl⟩

/-- C10 (witness): three requests where the external source fails on the
first request: all three responses are the default-catalog object, and
the external source was contacted exactly once. -/
theorem claimC10_witness :
    (modelsRun (0 : Nat) (fun _ => none) 3).1 =
        List.replicate 3 (firstModels (0 : Nat) (fun _ => none)) ∧
      (modelsRun (0 : Nat) (fun _ => none) 3).2.1 =
        some (firstModels (0 : Nat) (fun _ => none)) ∧
      (modelsRun (0 : Nat) (fun _ => none) 3).2.2 = 1 :=
  claimC10_theorem 0 (fun _ => none) 3 (by decide)

end CopilotSvcs
